import Mathlib

/-!
Shallow embedding of the CTF enumeration scanner (src/ctf.py) and proofs
about its core pipeline: the scan-result validator `check_scan_results`,
the scan invoker `run_nmap`, the analysis requester `analyze_scan`, the
report writer `save_results`, and the workflow controller logic from
`main` (option building, the proceed-anyway prompt, and report writing).

External effects (the subprocess call, the HTTP request, terminal output
and the filesystem) are modelled by explicit inputs and outputs: the
subprocess outcome is a `ProcResult`, the HTTP outcome an `HttpResult`,
the filesystem a map from file names to contents, and interactive input
is passed in as a string.  Python strings are modelled as Lean `String`.
-/

/-- ASCII whitespace: the characters stripped by Python str.strip and
matched by the regex whitespace class. -/
def isPySpace (c : Char) : Bool :=
  c = ' ' || c = '\t' || c = '\n' || c = '\r' || c = Char.ofNat 11 || c = Char.ofNat 12

/-- Python str.strip on a character list: drop whitespace at both ends. -/
def pyStripList (l : List Char) : List Char :=
  ((l.dropWhile isPySpace).reverse.dropWhile isPySpace).reverse

/-- Python str.strip. -/
def pyStrip (s : String) : String := ⟨pyStripList s.data⟩

/-- Python str.lower (ASCII): lowercase every character. -/
def pyLower (s : String) : String := ⟨s.data.map Char.toLower⟩

/-- Python substring containment: needle in hay. -/
def containsSub (needle : List Char) : List Char → Bool
  | [] => needle.isEmpty
  | c :: rest => needle.isPrefixOf (c :: rest) || containsSub needle rest

/-- Python `needle in hay` on strings. -/
def containsStr (needle hay : String) : Bool := containsSub needle.data hay.data

/-- Python str.startswith. -/
def startsWithStr (pre s : String) : Bool := pre.data.isPrefixOf s.data

/-- Python truthiness of an optional string: None and the empty string are falsy. -/
def pyTruthy : Option String → Bool
  | none => false
  | some s => s != ""

/-- Python str() applied to an optional string: str(None) is the text None. -/
def pyStr : Option String → String
  | none => "None"
  | some s => s

/-- One attempt to match the regex digits-then-tcp-then-whitespace-then-open
at the head of the list, as the regex engine does at each start position:
a maximal nonempty digit run, the literal slash-t-c-p, a maximal nonempty
whitespace run, then the literal o-p-e-n.  Returns the captured digit
group and the total number of characters consumed by the match. -/
def tryPortMatch (l : List Char) : Option (String × Nat) :=
  let ds := l.takeWhile Char.isDigit
  if ds.length = 0 then none
  else
    let r1 := l.drop ds.length
    if ['/', 't', 'c', 'p'].isPrefixOf r1 then
      let r2 := r1.drop 4
      let ws := r2.takeWhile isPySpace
      if ws.length = 0 then none
      else
        let r3 := r2.drop ws.length
        if ['o', 'p', 'e', 'n'].isPrefixOf r3 then
          some (⟨ds⟩, ds.length + 4 + ws.length + 4)
        else none
    else none

/-- Left-to-right non-overlapping scan of re.findall for the open-port
pattern: try a match at each position, and after a match continue right
after it.  The fuel argument starts at the list length; every recursive
call removes at least one character (a successful match consumes at
least ten), so the fuel never runs out before the list is exhausted. -/
def findPortsAux : Nat → List Char → List String
  | 0, _ => []
  | _, [] => []
  | fuel + 1, c :: rest =>
    match tryPortMatch (c :: rest) with
    | some (ds, n) => ds :: findPortsAux fuel (rest.drop (n - 1))
    | none => findPortsAux fuel rest

/-- re.findall of the capture group digits before tcp-open over a string. -/
def findPorts (s : String) : List String := findPortsAux s.data.length s.data

/-- check_scan_results from src/ctf.py: classify raw scan output, returning
the success flag and the human-readable reason. -/
def check_scan_results (scan_output : String) : Bool × String :=
  if scan_output = "" ∨ (pyStrip scan_output).length < 50 then
    (false, "Scan produced no output")
  else if containsStr "Host seems down" scan_output ∨ containsStr "0 hosts up" scan_output then
    (false, "Host appears down (try -Pn flag)")
  else
    let open_ports := findPorts scan_output
    if open_ports = [] then
      if containsStr "filtered" (pyLower scan_output) ∨ containsStr "closed" (pyLower scan_output) then
        (false, "No open ports found (all ports closed/filtered)")
      else
        (false, "No ports detected in scan output")
    else
      (true, "Found " ++ toString open_ports.length ++ " open port(s): "
        ++ String.intercalate ", " open_ports)

/-- Outcome of the subprocess.run call inside run_nmap: a timeout, a
launch exception carrying the exception message, or a completed process
with its return code, captured standard output and standard error. -/
inductive ProcResult
  | timeout
  | launchError (msg : String)
  | completed (returncode : Int) (stdout : String) (stderr : String)

/-- run_nmap from src/ctf.py, as a function of the subprocess outcome.
Returns the pair of scan text and error reason that the Python function
returns to main. -/
def run_nmap (r : ProcResult) : Option String × Option String :=
  match r with
  | ProcResult.completed rc out _ =>
    if rc ≠ 0 then (none, some "Scan failed")
    else
      let v := check_scan_results out
      if v.1 then (some out, none) else (some out, some v.2)
  | ProcResult.timeout => (none, some "Timeout")
  | ProcResult.launchError msg => (none, some msg)

/-- Outcome of the HTTP POST inside analyze_scan: a response with a
status code and the extracted generated text, or a transport or parse
exception carrying the exception message. -/
inductive HttpResult
  | response (status : Nat) (text : String)
  | failure (msg : String)

/-- analyze_scan from src/ctf.py, as a function of the HTTP outcome:
the generated text on status 200, otherwise the Error: marker followed
by the status code or the exception message. -/
def analyze_scan (r : HttpResult) : String :=
  match r with
  | HttpResult.response code text =>
    if code = 200 then text else "Error: " ++ toString code
  | HttpResult.failure msg => "Error: " ++ msg

/-- Python single-character str.replace: substitute every occurrence of
one character by another. -/
def replaceChar (a b : Char) (s : String) : String :=
  ⟨s.data.map (fun c => if c = a then b else c)⟩

/-- save_results from src/ctf.py: derive the sanitized file name and the
full markdown content (the concatenation of the five sequential writes).
Returns the pair of file name and content. -/
def save_results (target scan_results analysis : String) : String × String :=
  let safe_target := replaceChar '/' '_' (replaceChar '.' '_' target)
  let filename := "analysis_" ++ safe_target ++ ".md"
  let content :=
    "# CTF Enumeration: " ++ target ++ "\n\n---\n\n"
      ++ analysis
      ++ "\n\n---\n\n## Raw Nmap Scan\n\n```text\n"
      ++ scan_results
      ++ "\n```\n"
  (filename, content)

/-- A filesystem as a map from file names to contents; writing in mode w
truncates and replaces the content of the named file. -/
def writeFile (fs : String → Option String) (nm content : String) : String → Option String :=
  fun q => if q = nm then some content else fs q

/-- save_results acting on the modelled filesystem: returns the updated
filesystem and the file name handed back to the caller. -/
def save_results_fs (fs : String → Option String) (t s a : String) :
    (String → Option String) × String :=
  let r := save_results t s a
  (writeFile fs r.1 r.2, r.1)

/-- Outcome of a run of main after the scan step: the run can end with
no analysis at all, end because the user declined the proceed-anyway
prompt, end on an analysis error, or write a report. -/
inductive RunOutcome
  | failedNoAnalysis
  | declined
  | analysisError (msg : String)
  | reported (filename : String) (content : String)
deriving DecidableEq

/-- The condition of the scan-failed branch in main: no scan text (None
or empty, Python falsiness) or a truthy error reason. -/
def scanFailedBranch (scan_results error : Option String) : Bool :=
  !(pyTruthy scan_results) || pyTruthy error

/-- The condition under which main offers the proceed-anyway prompt:
the scan-failed branch was entered, the scan text is truthy, and the
text No open ports does not occur in str(error). -/
def promptOffered (scan_results error : Option String) : Bool :=
  scanFailedBranch scan_results error
    && (pyTruthy scan_results && !(containsStr "No open ports" (pyStr error)))

/-- The analysis-and-report tail of main: request the analysis, abort if
the result starts with the Error: marker, otherwise save the report. -/
def analyze_and_report (scan_results : Option String) (target : String)
    (http : HttpResult) : RunOutcome :=
  let analysis := analyze_scan http
  if startsWithStr "Error:" analysis then RunOutcome.analysisError analysis
  else
    let saved := save_results target (scan_results.getD "") analysis
    RunOutcome.reported saved.1 saved.2

/-- The control flow of main after run_nmap returns: enter the failed
branch when the scan text is falsy or an error is present; inside it,
offer the proceed-anyway prompt exactly when the scan text is truthy
and str(error) does not contain No open ports, continuing only on the
stripped lowercased answer y; otherwise return.  On the success path,
or after a positive answer, run analysis and reporting. -/
def main_after_scan (scan_results error : Option String) (target : String)
    (http : HttpResult) (proceedAnswer : String) : RunOutcome :=
  if scanFailedBranch scan_results error then
    if pyTruthy scan_results && !(containsStr "No open ports" (pyStr error)) then
      if pyLower (pyStrip proceedAnswer) = "y" then
        analyze_and_report scan_results target http
      else RunOutcome.declined
    else RunOutcome.failedNoAnalysis
  else analyze_and_report scan_results target http

/-- Option building from the mode-selection block of main: the stripped
menu answer (empty defaults to 2), the stripped ports answer for mode 4,
and the stripped custom flag string for mode 5, tokenized by the shell
lexer tok, with -Pn inserted at the front when missing.  Unrecognized
choices fall back to the full-scan set. -/
def build_options (choiceRaw portsRaw customRaw : String)
    (tok : String → List String) : List String :=
  let choice := if pyStrip choiceRaw = "" then "2" else pyStrip choiceRaw
  if choice = "1" then ["-Pn", "-sV", "-sC", "-T4"]
  else if choice = "2" then ["-Pn", "-sV", "-sC", "-p-", "-T4"]
  else if choice = "3" then ["-Pn", "-A", "-T4"]
  else if choice = "4" then
    let ports := if pyStrip portsRaw = "" then "1-10000" else pyStrip portsRaw
    ["-Pn", "-sV", "-sC", "-p" ++ ports, "-T4"]
  else if choice = "5" then
    let custom_flags := pyStrip customRaw
    if custom_flags = "" then ["-Pn", "-sV", "-sC"]
    else
      let opts := tok custom_flags
      if "-Pn" ∈ opts then opts else "-Pn" :: opts
  else ["-Pn", "-sV", "-sC", "-p-", "-T4"]

/-- dict.fromkeys duplicate removal: keep the first occurrence of each
element, preserving order, carrying the set of keys already seen. -/
def dedupFirstAcc (seen : List String) : List String → List String
  | [] => []
  | x :: xs =>
    if x ∈ seen then dedupFirstAcc seen xs
    else x :: dedupFirstAcc (x :: seen) xs

/-- list(dict.fromkeys(l)): first-occurrence duplicate removal. -/
def dedupFirst (l : List String) : List String := dedupFirstAcc [] l

/-- A sample scan output with two open ports, 80 then 22. -/
def sampleOpenScan : String :=
  "Nmap scan report for 10.10.10.5\n80/tcp open http\n22/tcp open ssh\nService detection performed"

/-- A sample scan output where every port is filtered: long enough, the
host is not reported down, no open-port pattern occurs, and the word
filtered occurs, so the validator reports no open ports. -/
def sampleFilteredScan : String :=
  "Nmap scan report for 10.10.10.5\nAll 65535 scanned ports on 10.10.10.5 are filtered\nNmap done"

/-- A sample scan output that is long enough but carries no host-down
indicator, no open-port pattern and no filtered or closed mention, so
the validator reports no ports detected. -/
def sampleNoPortsScan : String :=
  "Nmap scan report for target host ten dot ten dot ten dot five with no service banners at all"

theorem check_reason_ne_empty (s : String) : (check_scan_results s).2 ≠ "" := by
  unfold check_scan_results
  by_cases h1 : s = "" ∨ (pyStrip s).length < 50
  · rw [if_pos h1]; simp
  · rw [if_neg h1]
    by_cases h2 : containsStr "Host seems down" s = true ∨ containsStr "0 hosts up" s = true
    · rw [if_pos h2]; simp
    · rw [if_neg h2]
      simp only []
      by_cases h3 : findPorts s = []
      · rw [if_pos h3]
        by_cases h4 : containsStr "filtered" (pyLower s) = true ∨ containsStr "closed" (pyLower s) = true
        · rw [if_pos h4]; simp
        · rw [if_neg h4]; simp
      · rw [if_neg h3]
        intro hemp
        have hl := congrArg String.length hemp
        rw [String.length_append, String.length_append, String.length_append] at hl
        have h6 : ("Found " : String).length = 6 := rfl
        have h0 : ("" : String).length = 0 := rfl
        rw [h6, h0] at hl
        omega

theorem mem_dedupFirstAcc (a : String) (l : List String) :
    ∀ seen : List String, a ∈ dedupFirstAcc seen l ↔ (a ∈ l ∧ a ∉ seen) := by
  induction l with
  | nil => intro seen; simp [dedupFirstAcc]
  | cons x xs ih =>
    intro seen
    by_cases hx : x ∈ seen
    · rw [dedupFirstAcc, if_pos hx, ih]
      constructor
      · rintro ⟨h1, h2⟩; exact ⟨List.mem_cons_of_mem x h1, h2⟩
      · rintro ⟨h1, h2⟩
        rcases List.mem_cons.mp h1 with rfl | h1
        · exact absurd hx h2
        · exact ⟨h1, h2⟩
    · rw [dedupFirstAcc, if_neg hx]
      constructor
      · intro h
        rcases List.mem_cons.mp h with rfl | h
        · exact ⟨List.mem_cons_self a xs, hx⟩
        · rcases (ih (x :: seen)).mp h with ⟨h1, h2⟩
          refine ⟨List.mem_cons_of_mem x h1, fun hs => h2 (List.mem_cons_of_mem x hs)⟩
      · rintro ⟨h1, h2⟩
        rcases List.mem_cons.mp h1 with rfl | h1
        · exact List.mem_cons_self a _
        · by_cases hax : a = x
          · subst hax; exact List.mem_cons_self a _
          · refine List.mem_cons_of_mem x ((ih (x :: seen)).mpr ⟨h1, fun hs => ?_⟩)
            rcases List.mem_cons.mp hs with h | h
            · exact hax h
            · exact h2 h

theorem mem_dedupFirst (a : String) (l : List String) :
    a ∈ dedupFirst l ↔ a ∈ l := by
  rw [dedupFirst, mem_dedupFirstAcc]
  simp

theorem replaceChar_replaceChar (t : String) :
    replaceChar '/' '_' (replaceChar '.' '_' t) =
      String.mk (t.data.map (fun c => if c = '.' ∨ c = '/' then '_' else c)) := by
  simp only [replaceChar, List.map_map]
  congr 1
  apply List.map_congr_left
  intro c _
  by_cases h1 : c = '.'
  · subst h1; simp
  · by_cases h2 : c = '/'
    · subst h2; simp
    · simp [Function.comp, h1, h2]

/-- Claim C2: the validator evaluates its five branches in a fixed
priority order: absent or short trimmed text gives the no-output
failure; otherwise a host-down indicator gives the host-down failure
even when open-port patterns are present; otherwise one or more
open-port matches give success; otherwise a filtered or closed mention
gives the all-closed-or-filtered failure; otherwise the no-ports
failure.  The quoted labels of the claim correspond to the exact reason
strings of the code used below. -/
theorem c2_validator_priority (s : String) :
    ((s = "" ∨ (pyStrip s).length < 50) →
      check_scan_results s = (false, "Scan produced no output")) ∧
    (¬(s = "" ∨ (pyStrip s).length < 50) →
      (containsStr "Host seems down" s = true ∨ containsStr "0 hosts up" s = true) →
      check_scan_results s = (false, "Host appears down (try -Pn flag)")) ∧
    (¬(s = "" ∨ (pyStrip s).length < 50) →
      ¬(containsStr "Host seems down" s = true ∨ containsStr "0 hosts up" s = true) →
      findPorts s ≠ [] →
      (check_scan_results s).1 = true) ∧
    (¬(s = "" ∨ (pyStrip s).length < 50) →
      ¬(containsStr "Host seems down" s = true ∨ containsStr "0 hosts up" s = true) →
      findPorts s = [] →
      (containsStr "filtered" (pyLower s) = true ∨ containsStr "closed" (pyLower s) = true) →
      check_scan_results s = (false, "No open ports found (all ports closed/filtered)")) ∧
    (¬(s = "" ∨ (pyStrip s).length < 50) →
      ¬(containsStr "Host seems down" s = true ∨ containsStr "0 hosts up" s = true) →
      findPorts s = [] →
      ¬(containsStr "filtered" (pyLower s) = true ∨ containsStr "closed" (pyLower s) = true) →
      check_scan_results s = (false, "No ports detected in scan output")) := by
  refine ⟨?_, ?_, ?_, ?_, ?_⟩
  · intro h1
    unfold check_scan_results
    rw [if_pos h1]
  · intro h1 h2
    unfold check_scan_results
    rw [if_neg h1, if_pos h2]
  · intro h1 h2 h3
    unfold check_scan_results
    rw [if_neg h1, if_neg h2]
    simp only []
    rw [if_neg h3]
  · intro h1 h2 h3 h4
    unfold check_scan_results
    rw [if_neg h1, if_neg h2]
    simp only []
    rw [if_pos h3, if_pos h4]
  · intro h1 h2 h3 h4
    unfold check_scan_results
    rw [if_neg h1, if_neg h2]
    simp only []
    rw [if_pos h3, if_neg h4]

/-- Witness for C2: a short output hits the no-output branch, and an
all-filtered output long enough to pass the length check hits the
all-closed-or-filtered branch. -/
theorem c2_validator_priority_witness :
    check_scan_results "short" = (false, "Scan produced no output") ∧
    check_scan_results sampleFilteredScan =
      (false, "No open ports found (all ports closed/filtered)") :=
  ⟨(c2_validator_priority "short").1 (by decide),
    (c2_validator_priority sampleFilteredScan).2.2.2.1
      (by decide) (by decide) (by decide) (by decide)⟩

/-- Claim C3: on output that passes the length and host-down checks and
contains at least one open-port pattern, the validator succeeds and its
reason states the exact match count and the matched port numbers in
order of first appearance. -/
theorem c3_open_ports_reason (s : String)
    (h1 : ¬(s = "" ∨ (pyStrip s).length < 50))
    (h2 : ¬(containsStr "Host seems down" s = true ∨ containsStr "0 hosts up" s = true))
    (h3 : findPorts s ≠ []) :
    check_scan_results s =
      (true, "Found " ++ toString (findPorts s).length ++ " open port(s): "
        ++ String.intercalate ", " (findPorts s)) := by
  unfold check_scan_results
  rw [if_neg h1, if_neg h2]
  simp only []
  rw [if_neg h3]

/-- Witness for C3: output containing 80/tcp open then 22/tcp open is
classified succeeded with count 2 and the list 80, 22 in order. -/
theorem c3_open_ports_reason_witness :
    check_scan_results sampleOpenScan = (true, "Found 2 open port(s): 80, 22") := by
  have h := c3_open_ports_reason sampleOpenScan (by decide) (by decide) (by decide)
  rw [h]
  rfl

/-- Counterexample for claim C1.  The claim says the proceed-anyway
prompt is offered when the scan returns non-empty raw text and the
failure reason indicates a no-open-ports condition.  On an all-filtered
scan the scanner exits zero with non-empty output and the reason is
exactly the no-open-ports reason, yet main skips the prompt and
terminates the run, because the code offers the prompt only when the
text No open ports does NOT occur in the error string. -/
theorem c1_prompt_counterexample :
    run_nmap (ProcResult.completed 0 sampleFilteredScan "") =
      (some sampleFilteredScan, some "No open ports found (all ports closed/filtered)") ∧
    pyTruthy (some sampleFilteredScan) = true ∧
    containsStr "No open ports"
      (pyStr (some "No open ports found (all ports closed/filtered)")) = true ∧
    promptOffered (some sampleFilteredScan)
      (some "No open ports found (all ports closed/filtered)") = false ∧
    main_after_scan (some sampleFilteredScan)
      (some "No open ports found (all ports closed/filtered)") "10.10.10.5"
      (HttpResult.response 200 "analysis text") "y" = RunOutcome.failedNoAnalysis :=
  ⟨rfl, rfl, rfl, rfl, rfl⟩

/-- Claim C1 as amended: after a scan attempt, the proceed-anyway prompt
is offered exactly when the scanner completed with exit code zero, the
captured output is non-empty, its classification failed, and the failure
reason does not contain the substring No open ports; every failure with
no raw text (timeout, non-zero exit, launch exception) and the
all-closed-or-filtered reason, which does contain that substring, skip
the prompt. -/
theorem c1_prompt_rule (pr : ProcResult) :
    promptOffered (run_nmap pr).1 (run_nmap pr).2 =
      match pr with
      | ProcResult.timeout => false
      | ProcResult.launchError _ => false
      | ProcResult.completed rc out _ =>
        if rc = 0 then
          (out != "") && !(check_scan_results out).1
            && !(containsStr "No open ports" (check_scan_results out).2)
        else false := by
  cases pr with
  | timeout => rfl
  | launchError msg => simp [run_nmap, promptOffered, scanFailedBranch, pyTruthy]
  | completed rc out se =>
    show promptOffered (run_nmap (ProcResult.completed rc out se)).1
        (run_nmap (ProcResult.completed rc out se)).2 =
      if rc = 0 then
        (out != "") && !(check_scan_results out).1
          && !(containsStr "No open ports" (check_scan_results out).2)
      else false
    by_cases hrc : rc = 0
    · subst hrc
      rw [if_pos rfl]
      by_cases hv : (check_scan_results out).1
      · by_cases hout : out = ""
        · subst hout
          simp [run_nmap, promptOffered, scanFailedBranch, pyTruthy, pyStr, hv]
        · have hb : (out != "") = true := bne_iff_ne.mpr hout
          simp [run_nmap, promptOffered, scanFailedBranch, pyTruthy, pyStr, hv, hb]
      · by_cases hout : out = ""
        · subst hout
          simp [run_nmap, promptOffered, scanFailedBranch, pyTruthy, pyStr, hv]
        · have hb : (out != "") = true := bne_iff_ne.mpr hout
          have hr : ((check_scan_results out).2 != "") = true :=
            bne_iff_ne.mpr (check_reason_ne_empty out)
          simp [run_nmap, promptOffered, scanFailedBranch, pyTruthy, pyStr, hv, hb, hr]
    · simp [run_nmap, promptOffered, scanFailedBranch, pyTruthy, pyStr, hrc]

/-- Claim C4: run_nmap returns no text and reason Timeout on timeout, no
text and the exception message on a launch exception, no text and reason
Scan failed on a non-zero exit code, and on exit code zero the captured
standard output together with the validator classification, the raw text
being returned even when the classification failed. -/
theorem c4_run_nmap_cases :
    run_nmap ProcResult.timeout = (none, some "Timeout") ∧
    (∀ m, run_nmap (ProcResult.launchError m) = (none, some m)) ∧
    (∀ rc out se, rc ≠ 0 →
      run_nmap (ProcResult.completed rc out se) = (none, some "Scan failed")) ∧
    (∀ out se,
      (run_nmap (ProcResult.completed 0 out se)).1 = some out ∧
      (run_nmap (ProcResult.completed 0 out se)).2 =
        (if (check_scan_results out).1 then none
          else some (check_scan_results out).2)) := by
  refine ⟨rfl, fun m => rfl, fun rc out se h => by simp [run_nmap, h], fun out se => ?_⟩
  by_cases hv : (check_scan_results out).1 <;>
    simp [run_nmap, hv]

/-- Witness for C4: a non-zero exit code yields no text and the scan
failed reason. -/
theorem c4_run_nmap_cases_witness :
    run_nmap (ProcResult.completed 1 "" "") = (none, some "Scan failed") :=
  c4_run_nmap_cases.2.2.1 1 "" "" (by decide)

/-- Claim C5: analyze_scan returns the generated text on status 200, the
Error: marker followed by the status code on any other status, and the
Error: marker followed by the exception message on a transport or parse
exception; and whenever the analysis text starts with the marker, main
never reaches the reported outcome, so no report file is written. -/
theorem c5_analysis_error_handling :
    (∀ t, analyze_scan (HttpResult.response 200 t) = t) ∧
    (∀ c t, c ≠ 200 → analyze_scan (HttpResult.response c t) = "Error: " ++ toString c) ∧
    (∀ m, analyze_scan (HttpResult.failure m) = "Error: " ++ m) ∧
    (∀ scan err target http ans fn content,
      startsWithStr "Error:" (analyze_scan http) = true →
      main_after_scan scan err target http ans ≠ RunOutcome.reported fn content) := by
  refine ⟨fun t => rfl, fun c t h => by simp [analyze_scan, h], fun m => rfl, ?_⟩
  intro scan err target http ans fn content hmark
  have ha : analyze_and_report scan target http =
      RunOutcome.analysisError (analyze_scan http) := by
    simp [analyze_and_report, hmark]
  unfold main_after_scan
  by_cases h1 : scanFailedBranch scan err = true
  · rw [if_pos h1]
    by_cases h2 : (pyTruthy scan && !(containsStr "No open ports" (pyStr err))) = true
    · rw [if_pos h2]
      by_cases h3 : pyLower (pyStrip ans) = "y"
      · rw [if_pos h3, ha]
        intro h; exact RunOutcome.noConfusion h
      · rw [if_neg h3]
        intro h; exact RunOutcome.noConfusion h
    · rw [if_neg h2]
      intro h; exact RunOutcome.noConfusion h
  · rw [if_neg h1, ha]
    intro h; exact RunOutcome.noConfusion h

/-- Witness for C5: status 500 yields the text Error: 500, and main with
that analysis never reports. -/
theorem c5_analysis_error_handling_witness :
    analyze_scan (HttpResult.response 500 "ignored") = "Error: 500" ∧
    main_after_scan (some "scan text") none "10.10.10.5"
      (HttpResult.response 500 "ignored") "y" ≠ RunOutcome.reported "f" "c" :=
  ⟨c5_analysis_error_handling.2.1 500 "ignored" (by decide),
    c5_analysis_error_handling.2.2.2 (some "scan text") none "10.10.10.5"
      (HttpResult.response 500 "ignored") "y" "f" "c" (by decide)⟩

/-- Claim C6: for mode 2, for empty input (defaulting to 2), and for any
unrecognized mode input, the option-building step followed by duplicate
removal yields exactly the fixed full-scan list containing -Pn, -sV,
-sC, -p- and -T4 once each, with no duplicates, for every tokenizer and
every ports or custom input. -/
theorem c6_full_scan_options (choiceRaw portsRaw customRaw : String)
    (tok : String → List String)
    (h : pyStrip choiceRaw = "2" ∨ pyStrip choiceRaw = "" ∨
      pyStrip choiceRaw ∉ (["1", "2", "3", "4", "5"] : List String)) :
    dedupFirst (build_options choiceRaw portsRaw customRaw tok) =
      ["-Pn", "-sV", "-sC", "-p-", "-T4"] ∧
    (dedupFirst (build_options choiceRaw portsRaw customRaw tok)).Nodup := by
  have hopts : build_options choiceRaw portsRaw customRaw tok =
      ["-Pn", "-sV", "-sC", "-p-", "-T4"] := by
    unfold build_options
    rcases h with h | h | h
    · rw [h]; rfl
    · rw [h]; rfl
    · by_cases he : pyStrip choiceRaw = ""
      · rw [he]; rfl
      · have h1 : pyStrip choiceRaw ≠ "1" := fun hx => h (by rw [hx]; decide)
        have h2 : pyStrip choiceRaw ≠ "2" := fun hx => h (by rw [hx]; decide)
        have h3 : pyStrip choiceRaw ≠ "3" := fun hx => h (by rw [hx]; decide)
        have h4 : pyStrip choiceRaw ≠ "4" := fun hx => h (by rw [hx]; decide)
        have h5 : pyStrip choiceRaw ≠ "5" := fun hx => h (by rw [hx]; decide)
        simp only [if_neg he, if_neg h1, if_neg h2, if_neg h3, if_neg h4, if_neg h5]
  rw [hopts]
  exact ⟨rfl, by decide⟩

/-- Witness for C6: the unrecognized choice 7 falls back to the fixed
full-scan option list with no duplicates. -/
theorem c6_full_scan_options_witness :
    dedupFirst (build_options "7" "" "" (fun _ => [])) =
      ["-Pn", "-sV", "-sC", "-p-", "-T4"] ∧
    (dedupFirst (build_options "7" "" "" (fun _ => []))).Nodup :=
  c6_full_scan_options "7" "" "" (fun _ => []) (by decide)

/-- Claim C7: for every mode selection, ports input, custom flag input
and tokenizer, the final deduplicated option list contains -Pn; for mode
5 it is prepended to a non-empty tokenized custom flag list when
missing, and an empty custom flag input falls back to the list -Pn,
-sV, -sC with no timing flag. -/
theorem c7_pn_always (choiceRaw portsRaw customRaw : String)
    (tok : String → List String) :
    "-Pn" ∈ dedupFirst (build_options choiceRaw portsRaw customRaw tok) ∧
    (pyStrip choiceRaw = "5" → pyStrip customRaw ≠ "" →
      "-Pn" ∉ tok (pyStrip customRaw) →
      build_options choiceRaw portsRaw customRaw tok =
        "-Pn" :: tok (pyStrip customRaw)) ∧
    (pyStrip choiceRaw = "5" → pyStrip customRaw = "" →
      build_options choiceRaw portsRaw customRaw tok = ["-Pn", "-sV", "-sC"]) := by
  refine ⟨?_, ?_, ?_⟩
  · rw [mem_dedupFirst]
    unfold build_options
    by_cases he : pyStrip choiceRaw = ""
    · rw [he]; exact List.mem_cons_self _ _
    · rw [if_neg he]
      by_cases h1 : pyStrip choiceRaw = "1"
      · rw [if_pos h1]; exact List.mem_cons_self _ _
      · rw [if_neg h1]
        by_cases h2 : pyStrip choiceRaw = "2"
        · rw [if_pos h2]; exact List.mem_cons_self _ _
        · rw [if_neg h2]
          by_cases h3 : pyStrip choiceRaw = "3"
          · rw [if_pos h3]; exact List.mem_cons_self _ _
          · rw [if_neg h3]
            by_cases h4 : pyStrip choiceRaw = "4"
            · rw [if_pos h4]; exact List.mem_cons_self _ _
            · rw [if_neg h4]
              by_cases h5 : pyStrip choiceRaw = "5"
              · rw [if_pos h5]
                by_cases hc : pyStrip customRaw = ""
                · rw [if_pos hc]; exact List.mem_cons_self _ _
                · rw [if_neg hc]
                  by_cases hp : "-Pn" ∈ tok (pyStrip customRaw)
                  · rw [if_pos hp]; exact hp
                  · rw [if_neg hp]; exact List.mem_cons_self _ _
              · rw [if_neg h5]; exact List.mem_cons_self _ _
  · intro h5 hc hp
    unfold build_options
    rw [h5]
    show (if pyStrip customRaw = "" then ["-Pn", "-sV", "-sC"]
      else if "-Pn" ∈ tok (pyStrip customRaw) then tok (pyStrip customRaw)
      else "-Pn" :: tok (pyStrip customRaw)) = "-Pn" :: tok (pyStrip customRaw)
    rw [if_neg hc, if_neg hp]
  · intro h5 hc
    unfold build_options
    rw [h5]
    show (if pyStrip customRaw = "" then ["-Pn", "-sV", "-sC"]
      else if "-Pn" ∈ tok (pyStrip customRaw) then tok (pyStrip customRaw)
      else "-Pn" :: tok (pyStrip customRaw)) = ["-Pn", "-sV", "-sC"]
    rw [if_pos hc]

/-- Witness for C7: with custom flags -sV -T4 the flag -Pn is prepended,
and with empty custom input the fallback list is produced. -/
theorem c7_pn_always_witness :
    "-Pn" ∈ dedupFirst (build_options "5" "" "-sV -T4" (fun _ => ["-sV", "-T4"])) ∧
    build_options "5" "" "-sV -T4" (fun _ => ["-sV", "-T4"]) = ["-Pn", "-sV", "-T4"] ∧
    build_options "5" "" "" (fun _ => ["-sV", "-T4"]) = ["-Pn", "-sV", "-sC"] :=
  ⟨(c7_pn_always "5" "" "-sV -T4" (fun _ => ["-sV", "-T4"])).1,
    (c7_pn_always "5" "" "-sV -T4" (fun _ => ["-sV", "-T4"])).2.1
      (by decide) (by decide) (by decide),
    (c7_pn_always "5" "" "" (fun _ => ["-sV", "-T4"])).2.2 (by decide) (by decide)⟩

/-- Claim C8: the report writer names the file analysis_ followed by the
target with every dot and slash replaced by an underscore and the suffix
md, returns that name, and writes in order the level-1 heading, a rule,
the analysis text verbatim, a rule, the level-2 raw-scan heading, and
the raw scan text in a fenced code block; the target 10.10.10.5 yields
exactly the file name analysis_10_10_10_5.md. -/
theorem c8_report_format (t s a : String) :
    (save_results t s a).1 =
      "analysis_"
        ++ String.mk (t.data.map (fun c => if c = '.' ∨ c = '/' then '_' else c))
        ++ ".md" ∧
    (save_results t s a).2 =
      "# CTF Enumeration: " ++ t ++ "\n\n---\n\n" ++ a
        ++ "\n\n---\n\n## Raw Nmap Scan\n\n```text\n" ++ s ++ "\n```\n" ∧
    (save_results "10.10.10.5" s a).1 = "analysis_10_10_10_5.md" := by
  refine ⟨?_, rfl, rfl⟩
  show "analysis_" ++ replaceChar '/' '_' (replaceChar '.' '_' t) ++ ".md" = _
  rw [replaceChar_replaceChar]

/-- Claim C9: the report writer is deterministic and idempotent: writing
twice with identical target, scan text and analysis text produces the
same returned file name and leaves the filesystem with byte-identical
content, unchanged from a single write. -/
theorem c9_report_idempotent (fs : String → Option String) (t s a : String) :
    (save_results_fs (save_results_fs fs t s a).1 t s a).2 =
      (save_results_fs fs t s a).2 ∧
    ∀ q, (save_results_fs (save_results_fs fs t s a).1 t s a).1 q =
      (save_results_fs fs t s a).1 q := by
  refine ⟨rfl, fun q => ?_⟩
  by_cases hq : q = (save_results t s a).1 <;>
    simp [save_results_fs, writeFile, hq]

set_option maxRecDepth 40000 in
/-- Claim C10: a report can be written for a run whose scan was
classified failed: on a long enough output with no ports and no
filtered or closed mention, the scanner exits zero, the validator fails
with the no-ports-detected reason (which does not contain the text No
open ports), the user answers y, the analysis succeeds, and main writes
a report whose content embeds the failed raw scan text. -/
theorem c10_failed_scan_report :
    (check_scan_results sampleNoPortsScan).1 = false ∧
    run_nmap (ProcResult.completed 0 sampleNoPortsScan "") =
      (some sampleNoPortsScan, some "No ports detected in scan output") ∧
    containsStr "No open ports" "No ports detected in scan output" = false ∧
    main_after_scan (some sampleNoPortsScan) (some "No ports detected in scan output")
      "10.10.10.5" (HttpResult.response 200 "Target triage: nothing to report.") "y" =
      RunOutcome.reported "analysis_10_10_10_5.md"
        (save_results "10.10.10.5" sampleNoPortsScan
          "Target triage: nothing to report.").2 ∧
    containsStr sampleNoPortsScan
      (save_results "10.10.10.5" sampleNoPortsScan
        "Target triage: nothing to report.").2 = true :=
  ⟨rfl, rfl, rfl, rfl, rfl⟩
